import Mathlib

/-!
Shallow embedding of `src/app.py` (a small expense tracker).

Modelling conventions:
- Python `float` amounts are modelled as `ℚ`; every literal appearing in
  the claims (10.50, 5.25, 0.25, 3.50) is exactly representable in binary
  floating point, so sums of those literals agree with the Python values.
- The per-user expense file is modelled by `ArchivoGastos`: it is either
  absent (`os.path.exists` is false), present but unreadable/unparseable
  (`json.load` or iteration raises), or a parsed sequence of objects, each
  object carrying an optional value for each of the four named fields
  (a missing field makes `Gasto.from_dict` raise `KeyError`).
- The users file is modelled by `Option Usuarios`: `none` when the file
  does not exist, otherwise the parsed dict, kept as an association list
  with Python-dict update semantics (`dictGet` / `dictSet`).
- `datetime.now().strftime(...)` is passed in explicitly as a `now : String`
  argument wherever the Python code reads the clock.
- Exceptions are modelled with `Option`: `Gasto.from_dict` returns `none`
  where the Python raises `KeyError`.
-/

/-- One credentials mapping, as stored in `usuarios.json`
(`username → password`, keys unique). -/
abbrev Usuarios := List (String × String)

/-- Python `dict` lookup (`usuarios.get(usuario)`): the value at the key,
or `none` when absent. -/
def dictGet : Usuarios → String → Option String
  | [], _ => none
  | (k, v) :: rest, u => if k = u then some v else dictGet rest u

/-- Python `dict` assignment (`usuarios[usuario] = password`): overwrite if
the key is present, append otherwise. -/
def dictSet : Usuarios → String → String → Usuarios
  | [], u, p => [(u, p)]
  | (k, v) :: rest, u, p => if k = u then (k, p) :: rest else (k, v) :: dictSet rest u p

/-- `cargar_usuarios` (app.py:9-13): return the parsed file if it exists,
else the empty dict. -/
def cargar_usuarios (archivo : Option Usuarios) : Usuarios :=
  archivo.getD []

/-- `guardar_usuarios` (app.py:15-17): rewrite the users file wholesale. -/
def guardar_usuarios (usuarios : Usuarios) : Option Usuarios :=
  some usuarios

/-- `registrar_usuario` (app.py:19-25). Returns the boolean result and the
users file after the call. -/
def registrar_usuario (archivo : Option Usuarios) (usuario password : String) :
    Bool × Option Usuarios :=
  let usuarios := cargar_usuarios archivo
  if (dictGet usuarios usuario).isSome then
    (false, archivo)
  else
    (true, guardar_usuarios (dictSet usuarios usuario password))

/-- `validar_usuario` (app.py:27-29): `usuarios.get(usuario) == password`.
The UI only passes strings for `password`, so comparing with `some password`
is faithful (`None == password` is `False` in Python for a string). -/
def validar_usuario (archivo : Option Usuarios) (usuario password : String) : Bool :=
  dictGet (cargar_usuarios archivo) usuario == some password

/-- One expense record (`Gasto`, app.py:33-46). -/
structure Gasto where
  descripcion : String
  monto : ℚ
  categoria : String
  fecha : String
deriving DecidableEq, Repr

/-- `Gasto.__init__` (app.py:34-38). `fecha` defaults to `None`; the body
keeps it only when truthy (a non-empty string), otherwise stores the
current time `now`. -/
def Gasto.init (descripcion : String) (monto : ℚ) (categoria : String)
    (fecha : Option String) (now : String) : Gasto :=
  { descripcion := descripcion, monto := monto, categoria := categoria,
    fecha :=
      match fecha with
      | some f => if f = "" then now else f
      | none => now }

/-- One parsed JSON object of the expense file: each of the four named
fields either present or missing. -/
structure GastoDict where
  descripcion : Option String
  monto : Option ℚ
  categoria : Option String
  fecha : Option String
deriving DecidableEq, Repr

/-- `Gasto.to_dict` (app.py:40-42): all four fields present. -/
def Gasto.to_dict (g : Gasto) : GastoDict :=
  { descripcion := some g.descripcion, monto := some g.monto,
    categoria := some g.categoria, fecha := some g.fecha }

/-- `Gasto.from_dict` (app.py:44-46): subscripting a missing key raises
`KeyError`, modelled by `none`; otherwise the constructor runs with the
stored `fecha`. -/
def Gasto.from_dict (d : GastoDict) (now : String) : Option Gasto :=
  match d.descripcion, d.monto, d.categoria, d.fecha with
  | some de, some m, some c, some f => some (Gasto.init de m c (some f) now)
  | _, _, _, _ => none

/-- A record is malformed when any of the four named fields is missing;
exactly then `Gasto.from_dict` raises. -/
def GastoDict.malformed (d : GastoDict) : Bool :=
  d.descripcion.isNone || d.monto.isNone || d.categoria.isNone || d.fecha.isNone

/-- The per-user expense file `gastos_<usuario>.json` as seen by
`cargar_datos`: absent, present but failing to read or parse as a sequence,
or a parsed sequence of objects. -/
inductive ArchivoGastos where
  | ausente
  | corrupto
  | doc (items : List GastoDict)
deriving DecidableEq, Repr

/-- The list comprehension `[Gasto.from_dict(d) for d in datos]`
(app.py:60): all elements converted, or the first `KeyError` aborts the
whole comprehension (`none`). -/
def from_dict_list (now : String) : List GastoDict → Option (List Gasto)
  | [] => some []
  | d :: rest =>
    match Gasto.from_dict d now with
    | none => none
    | some g =>
      match from_dict_list now rest with
      | none => none
      | some gs => some (g :: gs)

/-- `GestorGastos.cargar_datos` (app.py:55-62): an absent file leaves the
list empty; any exception while reading, parsing or converting leaves the
list empty; otherwise the converted records. -/
def cargar_datos (now : String) : ArchivoGastos → List Gasto
  | .ausente => []
  | .corrupto => []
  | .doc items => (from_dict_list now items).getD []

/-- `GestorGastos.guardar_datos` (app.py:64-66): rewrite the file wholesale
with `to_dict` of every record, in order. -/
def guardar_datos (gastos : List Gasto) : ArchivoGastos :=
  .doc (gastos.map Gasto.to_dict)

/-- The in-memory state of a `GestorGastos` instance together with its
backing file. -/
structure GestorGastos where
  gastos : List Gasto
  archivo : ArchivoGastos
deriving DecidableEq, Repr

/-- `GestorGastos.__init__` (app.py:50-53): eagerly load; the constructor
itself does not write the file. -/
def GestorGastos.init (archivo : ArchivoGastos) (now : String) : GestorGastos :=
  { gastos := cargar_datos now archivo, archivo := archivo }

/-- `GestorGastos.agregar_gasto` (app.py:68-70): append a freshly
constructed record (current timestamp), then save. -/
def agregar_gasto (s : GestorGastos) (descripcion : String) (monto : ℚ)
    (categoria : String) (now : String) : GestorGastos :=
  let gastos := s.gastos ++ [Gasto.init descripcion monto categoria none now]
  { gastos := gastos, archivo := guardar_datos gastos }

/-- `GestorGastos.eliminar_gasto` (app.py:72-75): `pop(indice)` and save
when `0 <= indice < len(gastos)`, otherwise do nothing at all. -/
def eliminar_gasto (s : GestorGastos) (indice : Int) : GestorGastos :=
  if 0 ≤ indice ∧ indice < (s.gastos.length : Int) then
    let gastos := s.gastos.eraseIdx indice.toNat
    { gastos := gastos, archivo := guardar_datos gastos }
  else s

/-- Lexicographic order on character lists, as Python compares strings
(by code point, shorter prefix first). -/
def lex_le : List Char → List Char → Bool
  | [], _ => true
  | _ :: _, [] => false
  | a :: as, b :: bs =>
    if a < b then true
    else if b < a then false
    else lex_le as bs

/-- Python string comparison `a <= b`, by code points. -/
def str_le (a b : String) : Bool :=
  lex_le a.data b.data

/-- `GestorGastos.obtener_categorias` (app.py:77-78):
`sorted(list({g.categoria for g in self.gastos}))` — the distinct
categories in ascending order. Building the set then sorting is modelled
as deduplicating then sorting with Python's string comparison; `sorted`
normalises the set's arbitrary iteration order. -/
def obtener_categorias (s : GestorGastos) : List String :=
  List.insertionSort (fun a b => str_le a b = true) (s.gastos.map Gasto.categoria).dedup

/-- `GestorGastos.total` (app.py:80-81): `sum(g.monto for g in self.gastos)`,
a left fold starting from 0. -/
def total (s : GestorGastos) : ℚ :=
  s.gastos.foldl (fun acc g => acc + g.monto) 0

/-- Outcome shown by the add-expense form handler. -/
inductive ResultadoAgregar where
  | montoInvalido
  | montoNoPositivo
  | agregado
deriving DecidableEq, Repr

/-- The add-expense form handler (app.py:124-133): `float(monto)` either
fails (`montoParsed = none`) or yields `m`; `m <= 0` is rejected with an
error before any record is constructed; otherwise `agregar_gasto` runs.
This is the `addExpense` operation of the spec's operation surface. -/
def submit_nuevo_gasto (s : GestorGastos) (descripcion : String)
    (montoParsed : Option ℚ) (categoria now : String) :
    ResultadoAgregar × GestorGastos :=
  match montoParsed with
  | none => (.montoInvalido, s)
  | some m =>
    if m ≤ 0 then (.montoNoPositivo, s)
    else (.agregado, agregar_gasto s descripcion m categoria now)

/-! ### Helper lemmas -/

theorem lex_le_eq_true_iff (x : List Char) : ∀ y : List Char, lex_le x y = true ↔ ¬ List.lt y x := by
  induction x with
  | nil =>
    intro y
    constructor
    · intro _ h
      nomatch h
    · intro _
      cases y <;> rfl
  | cons a as ih =>
    intro y
    cases y with
    | nil =>
      constructor
      · intro h
        simp [lex_le] at h
      · intro h
        exact absurd (List.lt.nil a as) h
    | cons b bs =>
      by_cases hab : a < b
      · constructor
        · intro _ h
          cases h with
          | head _ _ hba => exact lt_asymm hab hba
          | tail h1 h2 h3 => exact h2 hab
        · intro _
          simp [lex_le, hab]
      · by_cases hba : b < a
        · constructor
          · intro h
            simp [lex_le, hab, hba] at h
          · intro h
            exact absurd (List.lt.head bs as hba) h
        · have heq : lex_le (a :: as) (b :: bs) = lex_le as bs := by
            simp [lex_le, hab, hba]
          rw [heq, ih bs]
          constructor
          · intro h hlt
            cases hlt with
            | head _ _ h1 => exact hba h1
            | tail _ h2 h3 => exact h h3
          · intro h hlt
            exact h (List.lt.tail hba hab hlt)

theorem str_le_iff (a b : String) : str_le a b = true ↔ a ≤ b := by
  show lex_le a.data b.data = true ↔ ¬ b < a
  rw [lex_le_eq_true_iff]
  apply not_congr
  rw [String.lt_iff_toList_lt]
  exact List.lt_iff_lex_lt b.data a.data

instance : IsTotal String fun a b => str_le a b = true :=
  ⟨fun a b => by
    rcases le_total a b with h | h
    · exact Or.inl ((str_le_iff a b).mpr h)
    · exact Or.inr ((str_le_iff b a).mpr h)⟩

instance : IsTrans String fun a b => str_le a b = true :=
  ⟨fun a b c hab hbc =>
    (str_le_iff a c).mpr (le_trans ((str_le_iff a b).mp hab) ((str_le_iff b c).mp hbc))⟩

theorem cargar_usuarios_some (m : Usuarios) : cargar_usuarios (some m) = m := rfl

theorem dictGet_dictSet_self (m : Usuarios) (u p : String) :
    dictGet (dictSet m u p) u = some p := by
  induction m with
  | nil => simp [dictGet, dictSet]
  | cons kv rest ih =>
    obtain ⟨k, v⟩ := kv
    by_cases h : k = u
    · simp [dictGet, dictSet, h]
    · simp [dictGet, dictSet, h, ih]

theorem from_dict_to_dict (g : Gasto) (now : String) (h : g.fecha ≠ "") :
    Gasto.from_dict g.to_dict now = some g := by
  simp [Gasto.from_dict, Gasto.to_dict, Gasto.init, h]

theorem from_dict_list_map_to_dict (now : String) (gs : List Gasto)
    (h : ∀ g ∈ gs, g.fecha ≠ "") :
    from_dict_list now (gs.map Gasto.to_dict) = some gs := by
  induction gs with
  | nil => rfl
  | cons g rest ih =>
    have hg : g.fecha ≠ "" := h g (by simp)
    have hrest : ∀ x ∈ rest, x.fecha ≠ "" := fun x hx => h x (by simp [hx])
    simp [from_dict_list, from_dict_to_dict g now hg, ih hrest]

theorem from_dict_eq_none_of_malformed (d : GastoDict) (now : String)
    (h : d.malformed = true) : Gasto.from_dict d now = none := by
  obtain ⟨de, m, c, f⟩ := d
  simp [GastoDict.malformed] at h
  rcases de with _ | de
  · rfl
  rcases m with _ | m
  · rfl
  rcases c with _ | c
  · rfl
  rcases f with _ | f
  · rfl
  simp at h

theorem from_dict_list_eq_none (now : String) (items : List GastoDict)
    (h : ∃ d ∈ items, Gasto.from_dict d now = none) :
    from_dict_list now items = none := by
  induction items with
  | nil => simp at h
  | cons d rest ih =>
    rcases h with ⟨e, he, hnone⟩
    rcases List.mem_cons.mp he with rfl | hmem
    · simp [from_dict_list, hnone]
    · cases hd : Gasto.from_dict d now with
      | none => simp [from_dict_list, hd]
      | some g => simp [from_dict_list, hd, ih ⟨e, hmem, hnone⟩]

/-! ### Claim theorems -/

/-- C1: for every description, category, and amount `m ≤ 0`, the
add-expense operation reports a validation error and leaves the ledger and
its backing file exactly as they were — no record is appended or
persisted. -/
theorem C1_addexpense_rechaza_monto_no_positivo (s : GestorGastos)
    (descripcion categoria now : String) (m : ℚ) (h : m ≤ 0) :
    submit_nuevo_gasto s descripcion (some m) categoria now =
      (ResultadoAgregar.montoNoPositivo, s) := by
  simp [submit_nuevo_gasto, h]

/-- Witness for C1 at `m = 0` on a concrete ledger. -/
theorem C1_addexpense_rechaza_monto_no_positivo_witness :
    submit_nuevo_gasto (GestorGastos.init .ausente "2024-01-01 00:00:00")
        "cafe" (some 0) "Comida" "2024-01-01 00:00:00" =
      (ResultadoAgregar.montoNoPositivo, GestorGastos.init .ausente "2024-01-01 00:00:00") :=
  C1_addexpense_rechaza_monto_no_positivo _ "cafe" "Comida" "2024-01-01 00:00:00" 0 le_rfl

/-- C2: `registrar_usuario` returns `false` and leaves the users file
untouched when the username is already a key; otherwise it inserts the
pair, persists, and returns `true`, after which `validar_usuario` with the
same pair returns `true`; and registering the same username a second time
always returns `false`, whatever the second password. -/
theorem C2_registrar_usuario_spec (archivo : Option Usuarios) (u p q : String) :
    ((dictGet (cargar_usuarios archivo) u).isSome = true →
      registrar_usuario archivo u p = (false, archivo)) ∧
    (dictGet (cargar_usuarios archivo) u = none →
      registrar_usuario archivo u p =
        (true, some (dictSet (cargar_usuarios archivo) u p)) ∧
      validar_usuario (registrar_usuario archivo u p).2 u p = true) ∧
    (registrar_usuario (registrar_usuario archivo u p).2 u q).1 = false := by
  refine ⟨?_, ?_, ?_⟩
  · intro h
    simp [registrar_usuario, h]
  · intro h
    have hfalse : (dictGet (cargar_usuarios archivo) u).isSome = false := by
      simp [h]
    constructor
    · simp [registrar_usuario, hfalse, guardar_usuarios]
    · simp [registrar_usuario, hfalse, guardar_usuarios, validar_usuario,
        cargar_usuarios_some, dictGet_dictSet_self]
  · cases h : (dictGet (cargar_usuarios archivo) u).isSome with
    | true =>
      simp [registrar_usuario, h]
    | false =>
      simp [registrar_usuario, h, guardar_usuarios, cargar_usuarios_some,
        dictGet_dictSet_self]

/-- Witness for C2: registering `alice` in an absent users file succeeds,
login with the same password then succeeds, and a second registration of
`alice` fails. -/
theorem C2_registrar_usuario_spec_witness :
    (registrar_usuario none "alice" "pw1" =
      (true, some (dictSet (cargar_usuarios none) "alice" "pw1")) ∧
    validar_usuario (registrar_usuario none "alice" "pw1").2 "alice" "pw1" = true) ∧
    (registrar_usuario (registrar_usuario none "alice" "pw1").2 "alice" "pw2").1 = false :=
  ⟨(C2_registrar_usuario_spec none "alice" "pw1" "pw2").2.1 rfl,
   (C2_registrar_usuario_spec none "alice" "pw1" "pw2").2.2⟩

/-- C3: `validar_usuario` returns `true` exactly when the username is a key
of the stored mapping and the stored password is string-equal to the given
one; an absent username yields `false`. -/
theorem C3_validar_usuario_spec (archivo : Option Usuarios) (u p : String) :
    (validar_usuario archivo u p = true ↔
      dictGet (cargar_usuarios archivo) u = some p) ∧
    (dictGet (cargar_usuarios archivo) u = none → validar_usuario archivo u p = false) := by
  constructor
  · simp [validar_usuario]
  · intro h
    simp [validar_usuario, h]

/-- Witness for C3: an unregistered username is rejected, not an error. -/
theorem C3_validar_usuario_spec_witness :
    validar_usuario none "bob" "pw" = false :=
  (C3_validar_usuario_spec none "bob" "pw").2 rfl

/-- C4: for an in-range index, `eliminar_gasto` removes exactly the record
at that position (the rest keep their relative order) and persists the
result; for an out-of-range index (including negatives) it is a silent
no-op leaving ledger and file unchanged. -/
theorem C4_eliminar_gasto_spec (s : GestorGastos) (i : Int) :
    (0 ≤ i ∧ i < (s.gastos.length : Int) →
      (eliminar_gasto s i).gastos =
        s.gastos.take i.toNat ++ s.gastos.drop (i.toNat + 1) ∧
      (eliminar_gasto s i).archivo = guardar_datos (eliminar_gasto s i).gastos) ∧
    (¬ (0 ≤ i ∧ i < (s.gastos.length : Int)) → eliminar_gasto s i = s) := by
  constructor
  · intro h
    unfold eliminar_gasto
    rw [if_pos h]
    exact ⟨List.eraseIdx_eq_take_drop_succ s.gastos i.toNat, rfl⟩
  · intro h
    unfold eliminar_gasto
    rw [if_neg h]

/-- Witness for C4: removing index 1 from a two-record ledger keeps the
first record and persists. -/
theorem C4_eliminar_gasto_spec_witness :
    (eliminar_gasto
        { gastos := [{ descripcion := "a", monto := 1, categoria := "x", fecha := "t" },
                     { descripcion := "b", monto := 2, categoria := "y", fecha := "t" }],
          archivo := .ausente } 1).gastos =
      [{ descripcion := "a", monto := 1, categoria := "x", fecha := "t" },
       { descripcion := "b", monto := 2, categoria := "y", fecha := "t" }].take 1 ++
      [{ descripcion := "a", monto := 1, categoria := "x", fecha := "t" },
       { descripcion := "b", monto := 2, categoria := "y", fecha := "t" }].drop 2 ∧
    (eliminar_gasto
        { gastos := [{ descripcion := "a", monto := 1, categoria := "x", fecha := "t" },
                     { descripcion := "b", monto := 2, categoria := "y", fecha := "t" }],
          archivo := .ausente } 1).archivo =
      guardar_datos (eliminar_gasto
        { gastos := [{ descripcion := "a", monto := 1, categoria := "x", fecha := "t" },
                     { descripcion := "b", monto := 2, categoria := "y", fecha := "t" }],
          archivo := .ausente } 1).gastos :=
  (C4_eliminar_gasto_spec _ 1).1 (by decide)

/-- C5 counterexample: a record whose stored `fecha` is the empty string is
not restored field-for-field — the constructor replaces a falsy `fecha`
with the current time, so the reloaded record differs. -/
theorem C5_roundtrip_contraejemplo :
    cargar_datos "2024-01-01 00:00:00"
        (guardar_datos [{ descripcion := "x", monto := 1, categoria := "c", fecha := "" }]) ≠
      [{ descripcion := "x", monto := 1, categoria := "c", fecha := "" }] := by
  decide

/-- C5 (amended): for every ledger all of whose records carry a non-empty
timestamp, persisting and reloading yields the identical ordered sequence,
field for field; and every record the program constructs has a non-empty
timestamp whenever the current-time string is non-empty, so every ledger
the program builds satisfies the hypothesis. -/
theorem C5_roundtrip_amended (gs : List Gasto) (now : String)
    (h : ∀ g ∈ gs, g.fecha ≠ "") :
    cargar_datos now (guardar_datos gs) = gs ∧
    (∀ de m c f n2, n2 ≠ "" → (Gasto.init de m c f n2).fecha ≠ "") := by
  constructor
  · simp [cargar_datos, guardar_datos, from_dict_list_map_to_dict now gs h]
  · intro de m c f n2 hn2
    rcases f with _ | f
    · simpa [Gasto.init] using hn2
    · by_cases hf : f = "" <;> simp [Gasto.init, hf, hn2]

/-- Witness for C5 (amended) on a one-record ledger with a normal
timestamp. -/
theorem C5_roundtrip_amended_witness :
    cargar_datos "2024-02-02 00:00:00"
        (guardar_datos [{ descripcion := "cafe", monto := 2, categoria := "Comida", fecha := "2024-01-01 10:00:00" }]) =
      [{ descripcion := "cafe", monto := 2, categoria := "Comida", fecha := "2024-01-01 10:00:00" }] :=
  (C5_roundtrip_amended _ "2024-02-02 00:00:00" (by decide)).1

/-- C6: `total` is the sum of the `monto` fields of all current records, it
is 0 on a freshly constructed empty ledger, and adding 10.50, 5.25 and 0.25
to an empty ledger makes it exactly 16.00. -/
theorem C6_total_spec (s : GestorGastos) :
    total s = (s.gastos.map Gasto.monto).sum ∧
    total (GestorGastos.init .ausente "2024-01-01 00:00:00") = 0 ∧
    total (agregar_gasto (agregar_gasto (agregar_gasto
        (GestorGastos.init .ausente "T") "a" 10.5 "Comida" "T")
        "b" 5.25 "Otros" "T") "c" 0.25 "Salud" "T") = 16 := by
  refine ⟨?_, rfl, ?_⟩
  · show s.gastos.foldl (fun acc g => acc + g.monto) 0 = _
    rw [List.sum_eq_foldl, List.foldl_map]
  · simp [total, agregar_gasto, GestorGastos.init, cargar_datos, Gasto.init]
    norm_num

/-- C7: `obtener_categorias` returns the distinct categories of the current
records as a duplicate-free, ascending-sorted sequence; in particular,
after adding records in categories Comida, Otros, Comida it returns
`["Comida", "Otros"]`. -/
theorem C7_obtener_categorias_spec (s : GestorGastos) :
    List.Sorted (· ≤ ·) (obtener_categorias s) ∧
    (obtener_categorias s).Nodup ∧
    (∀ c, c ∈ obtener_categorias s ↔ c ∈ s.gastos.map Gasto.categoria) ∧
    obtener_categorias (agregar_gasto (agregar_gasto (agregar_gasto
        (GestorGastos.init .ausente "T") "d1" 1 "Comida" "T")
        "d2" 2 "Otros" "T") "d3" 3 "Comida" "T") = ["Comida", "Otros"] := by
  refine ⟨?_, ?_, ?_, by decide⟩
  · exact List.Pairwise.imp (fun h => (str_le_iff _ _).mp h)
      (List.sorted_insertionSort _ _)
  · exact (List.perm_insertionSort _ _).nodup_iff.mpr (List.nodup_dedup _)
  · intro c
    unfold obtener_categorias
    rw [(List.perm_insertionSort _ _).mem_iff, List.mem_dedup]

/-- C8: ledger construction is total and tolerant: an absent file yields an
empty ledger, an unreadable or unparseable file yields an empty ledger, and
any failure while converting the parsed sequence also yields an empty
ledger — no case is surfaced as an error. -/
theorem C8_cargar_datos_spec (now : String) :
    (GestorGastos.init .ausente now).gastos = [] ∧
    (GestorGastos.init .corrupto now).gastos = [] ∧
    (∀ items, from_dict_list now items = none →
      (GestorGastos.init (.doc items) now).gastos = []) := by
  refine ⟨rfl, rfl, ?_⟩
  intro items h
  simp [GestorGastos.init, cargar_datos, h]

/-- Witness for C8: a document whose only element has no fields loads as
the empty ledger. -/
theorem C8_cargar_datos_spec_witness :
    (GestorGastos.init (.doc [{ descripcion := none, monto := none, categoria := none, fecha := none }]) "T").gastos = [] :=
  (C8_cargar_datos_spec "T").2.2 _ rfl

/-- C9: `agregar_gasto` appends exactly one freshly constructed record at
the end, keeps every previous record unchanged in its position, grows the
length by one, and persists the full sequence. -/
theorem C9_agregar_gasto_spec (s : GestorGastos) (descripcion : String) (monto : ℚ)
    (categoria now : String) :
    (agregar_gasto s descripcion monto categoria now).gastos =
      s.gastos ++ [Gasto.init descripcion monto categoria none now] ∧
    (agregar_gasto s descripcion monto categoria now).gastos.length =
      s.gastos.length + 1 ∧
    (agregar_gasto s descripcion monto categoria now).gastos.take s.gastos.length =
      s.gastos ∧
    (agregar_gasto s descripcion monto categoria now).archivo =
      guardar_datos (agregar_gasto s descripcion monto categoria now).gastos := by
  refine ⟨rfl, by simp [agregar_gasto], ?_, rfl⟩
  show (s.gastos ++ [Gasto.init descripcion monto categoria none now]).take
      s.gastos.length = s.gastos
  exact List.take_left s.gastos _

/-- C10: if the persisted document parses as a sequence but any element is
malformed (missing one of the four named fields), the constructed ledger is
completely empty — no prefix of valid records is retained. -/
theorem C10_cargar_all_or_nothing (items : List GastoDict) (now : String)
    (h : ∃ d ∈ items, d.malformed = true) :
    (GestorGastos.init (.doc items) now).gastos = [] := by
  rcases h with ⟨d, hd, hmal⟩
  have hnone : from_dict_list now items = none :=
    from_dict_list_eq_none now items ⟨d, hd, from_dict_eq_none_of_malformed d now hmal⟩
  simp [GestorGastos.init, cargar_datos, hnone]

/-- Witness for C10: a valid record followed by a record missing `fecha`
loads as the empty ledger — the valid prefix is dropped too. -/
theorem C10_cargar_all_or_nothing_witness :
    (GestorGastos.init (.doc
      [{ descripcion := some "ok", monto := some 1, categoria := some "Comida", fecha := some "F" },
       { descripcion := some "bad", monto := some 2, categoria := some "Otros", fecha := none }]) "T").gastos = [] :=
  C10_cargar_all_or_nothing _ "T" (by decide)
